import Mathlib

/-!
Verification of the Streamlit/BioSTEAM ethanol-plant app (`src/app.py`)
against its natural-language specification.

The app is a single linear script: four sidebar sliders, a button, a
flowsheet-construction function `ejecutar_simulacion`, a report function
`generar_reporte_streamlit`, and a button-triggered block that runs the
simulation, renders two tables, and asks a text-generation service for an
explanation.

Shallow embedding conventions:
- Physical quantities (flows, temperatures, pressures, enthalpies, duties)
  are rationals `ℚ`; the Python code uses floats, but every claim here is
  about structure, guards and exact wiring, not float rounding.
- Fallible Python evaluation (division that could raise `ZeroDivisionError`,
  indexing that could raise, an external call that could throw) is embedded
  as `Option`: `none` models an uncaught Python exception at that point.
- The two external black boxes (the BioSTEAM solver and the Gemini text
  service) are modelled by boolean oracles in a `World` record; the
  button-triggered control flow is a function `World → List Event`
  recording, in program order, the externally visible steps of `app.py`.
-/

/-- A stream definition as constructed by `ejecutar_simulacion` before
`simulate()` runs: identifier, per-component molar flows (kmol/hr, as in the
source), temperature (K) and pressure (Pa).  Mirrors the `bst.Stream(...)`
calls at `app.py` lines 45-51. -/
structure StreamDef where
  ID : String
  waterKmol : ℚ
  ethanolKmol : ℚ
  T : ℚ
  P : ℚ
deriving Repr, DecidableEq

/-- The BioSTEAM unit-operation classes used by `app.py`. -/
inductive UnitKind where
  | Pump
  | HXprocess
  | HXutility
  | IsenthalpicValve
  | Flash
deriving Repr, DecidableEq

/-- A unit operation as declared in `ejecutar_simulacion`: identifier, class,
inlet and outlet stream identifiers, and the scalar specifications passed to
the constructor (outlet pressure `Pset`, outlet temperature `Tset`, duty
`Qset`).  `E-100`'s `Tset` records the assignment `E100.outs[0].T = ...` at
line 57, which fixes the outlet temperature of stream `3-MOSTO-PRE`. -/
structure UnitOp where
  ID : String
  kind : UnitKind
  ins : List String
  outs : List String
  Pset : Option ℚ := none
  Tset : Option ℚ := none
  Qset : Option ℚ := none
deriving Repr, DecidableEq

/-- The system handed to `simulate()`: its name, the chemical species
declared via `tmo.Chemicals`, the two explicitly constructed feed/recycle
stream definitions, and the unit path (`app.py` line 66). -/
structure SystemModel where
  name : String
  chemicals : List String
  declaredStreams : List StreamDef
  path : List UnitOp
deriving Repr, DecidableEq

/-- Average molar mass used by the source to convert kg/h to kmol/h
(`PM promedio aprox 20.82`, line 44). -/
def MW_PROM : ℚ := 20.82

/-- `f_kmol = f_total / 20.82` (line 44). -/
def f_kmol (f_total : ℚ) : ℚ := f_total / MW_PROM

/-- Stream `1-MOSTO` (lines 45-47): 90 % water / 10 % ethanol on a molar
basis, 25 °C, 101325 Pa. -/
def mosto (f_total : ℚ) : StreamDef :=
  { ID := "1-MOSTO"
    waterKmol := f_kmol f_total * 0.9
    ethanolKmol := f_kmol f_total * 0.1
    T := 25 + 273.15
    P := 101325 }

/-- Stream `VINAZAS-RETORNO` (lines 49-51): pure water guess, 95 °C,
300000 Pa. -/
def vinazas_retorno (f_total : ℚ) : StreamDef :=
  { ID := "VINAZAS-RETORNO"
    waterKmol := f_kmol f_total * 0.9
    ethanolKmol := 0
    T := 95 + 273.15
    P := 300000 }

/-- Unnamed outlet of `P-100`; BioSTEAM auto-assigns a registry default name
to a stream created without an ID, modelled here by a fixed placeholder. -/
def P100_OUT : String := "s1"

/-- Unnamed outlet of `E-101`, same convention as `P100_OUT`. -/
def E101_OUT : String := "s2"

/-- `P100 = bst.Pump('P-100', ins=mosto, P=4*101325)` (line 54). -/
def P100 : UnitOp :=
  { ID := "P-100", kind := .Pump, ins := ["1-MOSTO"], outs := [P100_OUT]
    Pset := some (4 * 101325) }

/-- `E100 = bst.HXprocess('E-100', ins=(P100-0, vinazas_retorno),
outs=('3-MOSTO-PRE', 'DRENAJE'), ...)` with `E100.outs[0].T = t_e100+273.15`
(lines 55-57). -/
def E100 (t_e100 : ℚ) : UnitOp :=
  { ID := "E-100", kind := .HXprocess
    ins := [P100_OUT, "VINAZAS-RETORNO"]
    outs := ["3-MOSTO-PRE", "DRENAJE"]
    Tset := some (t_e100 + 273.15) }

/-- `E101 = bst.HXutility('E-101', ins=E100-0, T=t_e101+273.15)` (line 59). -/
def E101 (t_e101 : ℚ) : UnitOp :=
  { ID := "E-101", kind := .HXutility
    ins := ["3-MOSTO-PRE"], outs := [E101_OUT]
    Tset := some (t_e101 + 273.15) }

/-- `V100 = bst.IsenthalpicValve('V-100', ins=E101-0, outs='MEZCLA-BIFASICA',
P=p_atm*101325)` (line 60). -/
def V100 (p_atm : ℚ) : UnitOp :=
  { ID := "V-100", kind := .IsenthalpicValve
    ins := [E101_OUT], outs := ["MEZCLA-BIFASICA"]
    Pset := some (p_atm * 101325) }

/-- `V102 = bst.Flash('V-102', ins=V100-0, outs=('VAPOR-CALIENTE','VINAZAS'),
P=p_atm*101325, Q=0)` (line 61). -/
def V102 (p_atm : ℚ) : UnitOp :=
  { ID := "V-102", kind := .Flash
    ins := ["MEZCLA-BIFASICA"], outs := ["VAPOR-CALIENTE", "VINAZAS"]
    Pset := some (p_atm * 101325), Qset := some 0 }

/-- `E102 = bst.HXutility('E-102', ins=V102-0, outs='PRODUCTO-FINAL',
T=25+273.15)` (line 62). -/
def E102 : UnitOp :=
  { ID := "E-102", kind := .HXutility
    ins := ["VAPOR-CALIENTE"], outs := ["PRODUCTO-FINAL"]
    Tset := some (25 + 273.15) }

/-- `P101 = bst.Pump('P-101', ins=V102-1, outs=vinazas_retorno, P=3*101325)`
(line 63): its outlet IS the recycle stream `VINAZAS-RETORNO`. -/
def P101 : UnitOp :=
  { ID := "P-101", kind := .Pump
    ins := ["VINAZAS"], outs := ["VINAZAS-RETORNO"]
    Pset := some (3 * 101325) }

/-- Registering a stream in the flowsheet registry replaces any earlier
stream with the same identifier. -/
def register (reg : List StreamDef) (s : StreamDef) : List StreamDef :=
  s :: reg.filter (fun t => t.ID ≠ s.ID)

/-- `ejecutar_simulacion(f_total, t_e100, t_e101, p_atm)` (lines 36-69),
up to the point where the topology is handed to the external `simulate()`.
`prior` is whatever the process-wide flowsheet registry holds from earlier
invocations; the function re-creates every stream and unit from its four
scalar arguments, so `prior` only feeds into the returned updated registry,
never into the constructed system. -/
def ejecutar_simulacion (prior : List StreamDef) (f_total t_e100 t_e101 p_atm : ℚ) :
    SystemModel × List StreamDef :=
  let m := mosto f_total
  let v := vinazas_retorno f_total
  let sys : SystemModel :=
    { name := "planta_etanol"
      chemicals := ["Water", "Ethanol"]
      declaredStreams := [m, v]
      path := [P100, E100 t_e100, E101 t_e101, V100 p_atm, V102 p_atm, E102, P101] }
  (sys, register (register prior m) v)

/-- A stream as it exists after the external `simulate()` has mutated the
flowsheet in place (spec §3, §6): the report functions only read identifier,
temperature, pressure, total mass flow `F_mass`, the ethanol mass flow
`imass['Ethanol']` and the enthalpy `H`.  Field values are arbitrary because
the solver is a black box. -/
structure StreamState where
  ID : String
  T : ℚ
  P : ℚ
  F_mass : ℚ
  imassEthanol : ℚ
  H : ℚ
deriving Repr, DecidableEq

/-- A unit as read back by the energy table (lines 89-98): identifier, the
`heat_utilities` attribute (`none` = attribute absent, `some l` = present
with duty list `l`; a present empty list is falsy in Python, like an absent
attribute), whether the unit is a `bst.HXprocess` instance, and its inlet
and outlet streams. -/
structure UnitState where
  ID : String
  heat_utilities : Option (List ℚ)
  isHXprocess : Bool
  ins : List StreamState
  outs : List StreamState
deriving Repr, DecidableEq

/-- Division as Python evaluates it: `none` models an uncaught
`ZeroDivisionError`. -/
def qdiv (a b : ℚ) : Option ℚ :=
  if b = 0 then none else some (a / b)

/-- The `'% Etanol'` cell of a mass-table row: either the computed ratio
`s.imass['Ethanol']/s.F_mass` (rendered as a percentage) or the literal
fallback string `"0%"` of the conditional expression at line 84. -/
inductive PctEtanol where
  | fromDiv (v : ℚ)
  | fallback
deriving Repr, DecidableEq

/-- One row of the mass-balance table (lines 79-85), with the displayed
quantities kept as exact values (string formatting is not modelled). -/
structure MatRow where
  id : String
  tempC : ℚ
  presBar : ℚ
  flujo : ℚ
  pct : PctEtanol
deriving Repr, DecidableEq

/-- Builds one mass-table row for stream `s` (the dict at lines 79-85):
the `'% Etanol'` cell divides only when `s.F_mass > 0` and otherwise takes
the `"0%"` fallback branch; `none` models the division raising. -/
def matRow (s : StreamState) : Option MatRow := do
  let pct ← if s.F_mass > 0 then (qdiv s.imassEthanol s.F_mass).map PctEtanol.fromDiv
            else pure PctEtanol.fallback
  pure { id := s.ID, tempC := s.T - 273.15, presBar := s.P / 100000
         flujo := s.F_mass, pct := pct }

/-- The `datos_mat` loop of `generar_reporte_streamlit` (lines 76-85): a row
is appended for each stream with `F_mass > 0`; `none` models an exception
escaping the loop. -/
def datos_mat : List StreamState → Option (List MatRow)
  | [] => some []
  | s :: ss =>
    if s.F_mass > 0 then do
      let r ← matRow s
      let rest ← datos_mat ss
      pure (r :: rest)
    else datos_mat ss

/-- The duty computation of the energy loop (lines 90-95):
`calor_kw = sum(h.duty for h in u.heat_utilities)/3600` when
`heat_utilities` exists and is non-empty, else `(u.outs[0].H - u.ins[0].H)/3600`
for an `HXprocess`, else the initial `0.0`.  `none` models `u.outs[0]` or
`u.ins[0]` raising `IndexError`. -/
def computeDuty (u : UnitState) : Option ℚ :=
  match u.heat_utilities with
  | some (h :: hs) => some ((h :: hs).sum / 3600)
  | _ =>
    if u.isHXprocess then
      match u.outs, u.ins with
      | o :: _, i :: _ => some ((o.H - i.H) / 3600)
      | _, _ => none
    else some 0

/-- Round-half-to-even on rationals, the rounding mode of Python's
`round`. -/
def roundHalfEven (q : ℚ) : ℤ :=
  let n := ⌊q⌋
  if q - n < 1/2 then n
  else if 1/2 < q - n then n + 1
  else if n % 2 = 0 then n else n + 1

/-- `round(calor_kw, 2)` (line 98), idealised over ℚ. -/
def pyround2 (q : ℚ) : ℚ := (roundHalfEven (q * 100) : ℚ) / 100

/-- One row of the energy table: `{'Equipo': u.ID, 'Energía (kW)':
round(calor_kw, 2)}`. -/
structure EnRow where
  equipo : String
  energia : ℚ
deriving Repr, DecidableEq

/-- The `datos_en` loop of `generar_reporte_streamlit` (lines 88-98): each
unit's duty is computed and its row is appended exactly when
`abs(calor_kw) > 0.01`; `none` models an exception escaping the loop. -/
def datos_en : List UnitState → Option (List EnRow)
  | [] => some []
  | u :: us => do
    let c ← computeDuty u
    let rest ← datos_en us
    pure (if |c| > 0.01 then { equipo := u.ID, energia := pyround2 c } :: rest else rest)

/-- The purity computation for the prompt (line 123):
`prod.imass['Ethanol'] / prod.F_mass if prod.F_mass > 0 else 0`. -/
def pureza (prod : StreamState) : Option ℚ :=
  if prod.F_mass > 0 then qdiv prod.imassEthanol prod.F_mass else some 0

/-- A sidebar slider as declared in the source: bounds, default, and whether
its arguments are float literals.  `st.slider` returns a value of the same
numeric type as its arguments, so a slider declared with integer literals
(and the implied integer step 1) yields integers only. -/
structure SliderSpec where
  lo : ℚ
  hi : ℚ
  default : ℚ
  isFloat : Bool
deriving Repr, DecidableEq

/-- `f_mass_total = st.slider("Flujo Alimentación (kg/h)", 500, 2000, 1000)`
(line 25): integer literals. -/
def f_mass_total : SliderSpec := { lo := 500, hi := 2000, default := 1000, isFloat := false }

/-- `t_e100_out = st.slider("Temp. Salida E-100 (°C)", 70, 90, 85)`
(line 26): integer literals. -/
def t_e100_out : SliderSpec := { lo := 70, hi := 90, default := 85, isFloat := false }

/-- `t_e101_out = st.slider("Temp. Salida E-101 (°C)", 85, 98, 92)`
(line 27): integer literals. -/
def t_e101_out : SliderSpec := { lo := 85, hi := 98, default := 92, isFloat := false }

/-- `p_flash_atm = st.slider("Presión V-102 (atm)", 0.5, 1.5, 1.0)`
(line 28): float literals. -/
def p_flash_atm : SliderSpec := { lo := 0.5, hi := 1.5, default := 1.0, isFloat := true }

/-- The four sliders in sidebar order; their values are passed verbatim to
`ejecutar_simulacion` at line 105. -/
def parametros_ui : List SliderSpec := [f_mass_total, t_e100_out, t_e101_out, p_flash_atm]

/-- The UI-framework contract for a slider value: it lies within the
declared bounds, and a slider declared with integer literals yields an
integer (denominator 1). -/
def SliderValue (spec : SliderSpec) (v : ℚ) : Prop :=
  spec.lo ≤ v ∧ v ≤ spec.hi ∧ (spec.isFloat = false → v.den = 1)

/-- Outcomes of the external calls and of the button, abstracting the two
black-box services: `configureOk` is the `try` block at lines 10-14
(credential present and `genai` configured), `simulateOk` is
`eth_sys.simulate()` returning normally, `reportOk` is
`generar_reporte_streamlit` returning normally, `generateOk` is
`model.generate_content` returning normally. -/
structure World where
  btnPressed : Bool
  configureOk : Bool
  simulateOk : Bool
  reportOk : Bool
  generateOk : Bool
deriving Repr, DecidableEq

/-- Externally visible steps of one run of `app.py`. -/
inductive Event where
  | warning       -- st.warning at line 14
  | simulateCall  -- eth_sys.simulate() invoked (line 67, via line 105)
  | renderTables  -- both st.dataframe calls (lines 112, 115)
  | generateCall  -- model.generate_content invoked (line 134)
  | renderInfo    -- st.info(response.text): the explanation text (line 135)
  | renderError   -- st.error("No se pudo generar la explicación...") (line 137)
  | uncaught      -- an exception propagates out of the script: no handler
deriving Repr, DecidableEq

/-- The module run of `app.py` as an event trace.  The top-level `try` at
lines 10-14 converts a configuration failure into a warning.  The
button-triggered block (lines 103-137) has NO try/except around
`ejecutar_simulacion` or `generar_reporte_streamlit`: an exception there
propagates uncaught.  Only the `model.generate_content` call sits inside a
`try` (lines 133-137); when configuration failed earlier, the name `model`
is undefined and evaluating `model.generate_content` raises before any call
is made, which the same bare `except` also catches. -/
def runApp (w : World) : List Event :=
  (if w.configureOk then [] else [Event.warning]) ++
  (if w.btnPressed then
    Event.simulateCall ::
      (if w.simulateOk then
        (if w.reportOk then
          Event.renderTables ::
            (if w.configureOk then
              Event.generateCall ::
                [if w.generateOk then Event.renderInfo else Event.renderError]
            else [Event.renderError])
        else [Event.uncaught])
      else [Event.uncaught])
  else [])

/-- C1 (counterexample): the claim says every exception raised during
`ejecutar_simulacion` or `generar_reporte_streamlit` is caught and surfaced
as a generic error message.  In the world where the button is pressed and
`eth_sys.simulate()` raises (all else fine), the trace of `app.py` ends in
an uncaught exception and no error message is rendered: lines 103-115 have
no try/except around the simulation or the report. -/
theorem c1_counterexample :
    Event.uncaught ∈ runApp ⟨true, true, false, true, true⟩ ∧
    Event.renderError ∉ runApp ⟨true, true, false, true, true⟩ := by
  decide

/-- C1 (amended): in a button-triggered execution, an exception raised
during the simulation or during report generation propagates uncaught —
nothing is rendered and no error message is shown — while an exception
raised during the text-generation call is the one that is caught and
surfaced as the generic error message, with no retry and no partial-result
recovery. -/
theorem c1_amended (w : World) (hb : w.btnPressed = true) :
    ((w.simulateOk = false ∨ w.reportOk = false) →
        Event.uncaught ∈ runApp w ∧ Event.renderError ∉ runApp w ∧
        Event.renderInfo ∉ runApp w ∧ Event.generateCall ∉ runApp w) ∧
    (w.simulateOk = true → w.reportOk = true → w.configureOk = true →
        w.generateOk = false →
        Event.renderError ∈ runApp w ∧ Event.uncaught ∉ runApp w ∧
        Event.renderInfo ∉ runApp w) ∧
    (runApp w).count Event.simulateCall = 1 ∧
    (runApp w).count Event.generateCall ≤ 1 := by
  rcases w with ⟨b, c, s, r, g⟩
  cases b <;> cases c <;> cases s <;> cases r <;> cases g <;>
    first
      | exact absurd hb (by decide)
      | decide

/-- C1 (amended, witness): concrete world where only the text-generation
call fails — the generic error message is shown, nothing goes uncaught, and
no explanation text appears. -/
theorem c1_amended_witness :
    Event.renderError ∈ runApp ⟨true, true, true, true, false⟩ ∧
    Event.uncaught ∉ runApp ⟨true, true, true, true, false⟩ ∧
    Event.renderInfo ∉ runApp ⟨true, true, true, true, false⟩ :=
  (c1_amended ⟨true, true, true, true, false⟩ rfl).2.1 rfl rfl rfl rfl

/-- C2 (counterexample): the claim says the flowsheet declares exactly six
unit operations; the path built by `ejecutar_simulacion` (line 66) has
seven — `P-100`, `E-100`, `E-101`, `V-100`, `V-102`, `E-102`, `P-101` —
here evaluated at the default slider values. -/
theorem c2_counterexample :
    (ejecutar_simulacion [] 1000 85 92 1).1.path.length = 7 ∧
    ¬ (ejecutar_simulacion [] 1000 85 92 1).1.path.length = 6 := by
  exact ⟨rfl, by decide⟩

/-- C2 (amended): the flowsheet built by `ejecutar_simulacion` declares a
fixed topology of exactly SEVEN unit operations wired with a recycle
stream: some unit emits `VINAZAS-RETORNO` as an outlet and some unit takes
it as an inlet. -/
theorem c2_amended_seven_units (prior : List StreamDef) (f t1 t2 p : ℚ) :
    (ejecutar_simulacion prior f t1 t2 p).1.path.length = 7 ∧
    ∃ uOut ∈ (ejecutar_simulacion prior f t1 t2 p).1.path,
      ∃ uIn ∈ (ejecutar_simulacion prior f t1 t2 p).1.path,
        "VINAZAS-RETORNO" ∈ uOut.outs ∧ "VINAZAS-RETORNO" ∈ uIn.ins := by
  refine ⟨rfl, P101, ?_, E100 t1, ?_, ?_, ?_⟩
  · exact .tail _ (.tail _ (.tail _ (.tail _ (.tail _ (.tail _ (.head _))))))
  · exact .tail _ (.head _)
  · exact .head _
  · exact .tail _ (.head _)

/-- C3: for every input parameter set, the unit path handed to the system
is, in order, the feed pump `P-100`, the heat-recovery exchanger `E-100`
(`HXprocess`), the utility heater `E-101` (`HXutility`), the valve `V-100`,
the flash separator `V-102`, the product cooler `E-102` (`HXutility`), and
the recycle pump `P-101`. -/
theorem c3_path_order (prior : List StreamDef) (f t1 t2 p : ℚ) :
    ((ejecutar_simulacion prior f t1 t2 p).1.path.map UnitOp.ID)
      = ["P-100", "E-100", "E-101", "V-100", "V-102", "E-102", "P-101"] ∧
    ((ejecutar_simulacion prior f t1 t2 p).1.path.map UnitOp.kind)
      = [.Pump, .HXprocess, .HXutility, .IsenthalpicValve, .Flash, .HXutility, .Pump] :=
  ⟨rfl, rfl⟩

/-- C4: when the credential/configuration step fails (the `try` at lines
10-14 raises), the static warning is shown, the button-triggered execution
still runs the simulation and renders both tables, and no explanation text
is rendered. -/
theorem c4_credential_failure_continues (w : World)
    (hc : w.configureOk = false) (hb : w.btnPressed = true)
    (hs : w.simulateOk = true) (hr : w.reportOk = true) :
    Event.warning ∈ runApp w ∧ Event.simulateCall ∈ runApp w ∧
    Event.renderTables ∈ runApp w ∧ Event.renderInfo ∉ runApp w := by
  rcases w with ⟨b, c, s, r, g⟩
  cases b <;> cases c <;> cases s <;> cases r <;> cases g <;>
    first
      | exact absurd hb (by decide)
      | exact absurd hc (by decide)
      | exact absurd hs (by decide)
      | exact absurd hr (by decide)
      | decide

/-- C4 (witness): concrete world with the credential missing and everything
else succeeding. -/
theorem c4_witness :
    Event.warning ∈ runApp ⟨true, false, true, true, true⟩ ∧
    Event.simulateCall ∈ runApp ⟨true, false, true, true, true⟩ ∧
    Event.renderTables ∈ runApp ⟨true, false, true, true, true⟩ ∧
    Event.renderInfo ∉ runApp ⟨true, false, true, true, true⟩ :=
  c4_credential_failure_continues ⟨true, false, true, true, true⟩ rfl rfl rfl rfl

/-- C5: in every run, `simulate()` is called at most once and
`generate_content` at most once; when the button is pressed `simulate()` is
called exactly once; and whenever `generate_content` is reached,
`simulate()` has already been called and returned normally
(`simulateOk = true`), strictly earlier in the trace. -/
theorem c5_external_calls_in_sequence (w : World) :
    (runApp w).count Event.simulateCall ≤ 1 ∧
    (runApp w).count Event.generateCall ≤ 1 ∧
    (w.btnPressed = true → (runApp w).count Event.simulateCall = 1) ∧
    (Event.generateCall ∈ runApp w →
      w.simulateOk = true ∧ Event.simulateCall ∈ runApp w ∧
      (runApp w).indexOf Event.simulateCall < (runApp w).indexOf Event.generateCall) := by
  rcases w with ⟨b, c, s, r, g⟩
  cases b <;> cases c <;> cases s <;> cases r <;> cases g <;> decide

/-- C5 (witness): in the all-success world the simulation is called exactly
once and strictly before the text-generation call. -/
theorem c5_witness :
    (runApp ⟨true, true, true, true, true⟩).count Event.simulateCall = 1 ∧
    (runApp ⟨true, true, true, true, true⟩).indexOf Event.simulateCall <
      (runApp ⟨true, true, true, true, true⟩).indexOf Event.generateCall :=
  ⟨(c5_external_calls_in_sequence ⟨true, true, true, true, true⟩).2.2.1 rfl,
   ((c5_external_calls_in_sequence ⟨true, true, true, true, true⟩).2.2.2 (by decide)).2.2⟩

/-- C7: the recycle loop is closed by reusing one stream identifier:
`VINAZAS-RETORNO` is the outlet of recycle pump `P-101` and an inlet of
heat-recovery exchanger `E-100` in the topology handed to `simulate()`,
and it is one of the explicitly declared streams. -/
theorem c7_recycle_stream_reused (prior : List StreamDef) (f t1 t2 p : ℚ) :
    ∃ uP ∈ (ejecutar_simulacion prior f t1 t2 p).1.path,
      ∃ uE ∈ (ejecutar_simulacion prior f t1 t2 p).1.path,
        uP.ID = "P-101" ∧ uE.ID = "E-100" ∧
        "VINAZAS-RETORNO" ∈ uP.outs ∧ "VINAZAS-RETORNO" ∈ uE.ins ∧
        "VINAZAS-RETORNO" ∈
          ((ejecutar_simulacion prior f t1 t2 p).1.declaredStreams.map StreamDef.ID) := by
  refine ⟨P101, ?_, E100 t1, ?_, rfl, rfl, .head _, .tail _ (.head _), .tail _ (.head _)⟩
  · exact .tail _ (.tail _ (.tail _ (.tail _ (.tail _ (.tail _ (.head _))))))
  · exact .tail _ (.head _)

/-- C8: `ejecutar_simulacion` reads nothing but its four scalar arguments —
the system it constructs (species, stream compositions, temperatures,
pressures, flows, and unit wiring) is identical across invocations with
equal parameters, whatever the flowsheet registry held before. -/
theorem c8_stateless_construction (f t1 t2 p : ℚ) (prior₁ prior₂ : List StreamDef) :
    (ejecutar_simulacion prior₁ f t1 t2 p).1 = (ejecutar_simulacion prior₂ f t1 t2 p).1 :=
  rfl

/-- C6 (counterexample): the claim says all four slider inputs are scalar
floating-point inputs; the feed-flow slider is declared with integer
literals (`st.slider(..., 500, 2000, 1000)`, line 25), so it yields Python
integers, not floats — as do both temperature sliders. -/
theorem c6_counterexample :
    (f_mass_total ∈ parametros_ui ∧ f_mass_total.isFloat = false) ∧
    ¬ (∀ spec ∈ parametros_ui, spec.isFloat = true) := by
  decide

/-- C6 (amended): every parameter set passed to `ejecutar_simulacion`
satisfies the UI-enforced bounds — 500 ≤ feed mass flow ≤ 2000 kg/h,
70 ≤ E-100 outlet ≤ 90 °C, 85 ≤ E-101 outlet ≤ 98 °C, and 0.5 ≤ flash
pressure ≤ 1.5 atm — where the feed flow and the two temperatures are
integer-valued slider inputs and only the flash pressure is a
floating-point slider input. -/
theorem c6_amended_bounds (vf v1 v2 vp : ℚ)
    (hf : SliderValue f_mass_total vf) (h1 : SliderValue t_e100_out v1)
    (h2 : SliderValue t_e101_out v2) (hp : SliderValue p_flash_atm vp) :
    (500 ≤ vf ∧ vf ≤ 2000 ∧ vf.den = 1) ∧
    (70 ≤ v1 ∧ v1 ≤ 90 ∧ v1.den = 1) ∧
    (85 ≤ v2 ∧ v2 ≤ 98 ∧ v2.den = 1) ∧
    (0.5 ≤ vp ∧ vp ≤ 1.5) :=
  ⟨⟨hf.1, hf.2.1, hf.2.2 rfl⟩, ⟨h1.1, h1.2.1, h1.2.2 rfl⟩,
   ⟨h2.1, h2.2.1, h2.2.2 rfl⟩, ⟨hp.1, hp.2.1⟩⟩

/-- C6 (amended, witness): the slider defaults 1000 kg/h, 85 °C, 92 °C,
1.0 atm satisfy the bounds. -/
theorem c6_amended_witness :
    (500 ≤ (1000 : ℚ) ∧ (1000 : ℚ) ≤ 2000 ∧ (1000 : ℚ).den = 1) ∧
    (70 ≤ (85 : ℚ) ∧ (85 : ℚ) ≤ 90 ∧ (85 : ℚ).den = 1) ∧
    (85 ≤ (92 : ℚ) ∧ (92 : ℚ) ≤ 98 ∧ (92 : ℚ).den = 1) ∧
    (0.5 ≤ (1 : ℚ) ∧ (1 : ℚ) ≤ 1.5) :=
  c6_amended_bounds 1000 85 92 1
    ⟨by norm_num [f_mass_total], by norm_num [f_mass_total], fun _ => rfl⟩
    ⟨by norm_num [t_e100_out], by norm_num [t_e100_out], fun _ => rfl⟩
    ⟨by norm_num [t_e101_out], by norm_num [t_e101_out], fun _ => rfl⟩
    ⟨by norm_num [p_flash_atm], by norm_num [p_flash_atm], fun _ => rfl⟩

/-- When `s.F_mass > 0`, the mass-table row for `s` is built normally and
its `'% Etanol'` cell carries the computed ratio. -/
theorem matRow_of_pos {s : StreamState} (h : s.F_mass > 0) :
    matRow s = some { id := s.ID, tempC := s.T - 273.15, presBar := s.P / 100000,
                      flujo := s.F_mass,
                      pct := .fromDiv (s.imassEthanol / s.F_mass) } := by
  simp [matRow, qdiv, h, ne_of_gt h]

/-- C9: the mass-table loop never divides by zero (it always returns a
table, with `none` modelling `ZeroDivisionError`), every row it produces
comes from the division branch — the `"0%"` fallback of line 84 is
unreachable because the enclosing filter already requires `F_mass > 0` —
and the purity computation at line 123 likewise cannot divide by zero. -/
theorem c9_divisions_guarded :
    (∀ ss : List StreamState, ∃ rows, datos_mat ss = some rows ∧
        ∀ r ∈ rows, ∃ v, r.pct = PctEtanol.fromDiv v) ∧
    (∀ prod : StreamState, (pureza prod).isSome = true) := by
  constructor
  · intro ss
    induction ss with
    | nil => exact ⟨[], rfl, by simp⟩
    | cons s ss ih =>
      obtain ⟨rows, hrows, hall⟩ := ih
      by_cases h : s.F_mass > 0
      · refine ⟨{ id := s.ID, tempC := s.T - 273.15, presBar := s.P / 100000,
                  flujo := s.F_mass,
                  pct := .fromDiv (s.imassEthanol / s.F_mass) } :: rows, ?_, ?_⟩
        · simp [datos_mat, h, matRow_of_pos h, hrows]
        · intro r hr
          rcases List.mem_cons.mp hr with hr | hr
          · exact ⟨_, by rw [hr]⟩
          · exact hall r hr
      · exact ⟨rows, by simp [datos_mat, h, hrows], hall⟩
  · intro prod
    by_cases h : prod.F_mass > 0
    · simp [pureza, qdiv, h, ne_of_gt h]
    · simp [pureza, h]

/-- C9 (witness): a concrete post-simulation stream list — one stream with
positive flow, one with zero flow — yields a table whose single row uses
the division branch, and the purity of a zero-flow product evaluates to the
guarded `0`. -/
theorem c9_witness :
    (∃ rows,
        datos_mat [⟨"VAPOR-CALIENTE", 350, 101325, 200, 150, 0⟩,
                   ⟨"DRENAJE", 298, 101325, 0, 0, 0⟩] = some rows ∧
        ∀ r ∈ rows, ∃ v, r.pct = PctEtanol.fromDiv v) ∧
    (pureza ⟨"PRODUCTO-FINAL", 298, 101325, 0, 0, 0⟩).isSome = true :=
  ⟨c9_divisions_guarded.1 _, c9_divisions_guarded.2 _⟩

/-- Unfolding of one step of the energy-table loop. -/
theorem datos_en_cons (u : UnitState) (us : List UnitState) :
    datos_en (u :: us) = (computeDuty u).bind (fun c => (datos_en us).bind (fun rest =>
      some (if |c| > 0.01 then { equipo := u.ID, energia := pyround2 c } :: rest
            else rest))) :=
  rfl

/-- Completeness half of the energy-table filter: a unit whose duty clears
the 0.01 kW threshold gets its row into the table. -/
theorem datos_en_mem_of_duty {us : List UnitState} {rows : List EnRow}
    (h : datos_en us = some rows) {u : UnitState} (hu : u ∈ us) {c : ℚ}
    (hc : computeDuty u = some c) (hgt : |c| > 0.01) :
    ({ equipo := u.ID, energia := pyround2 c } : EnRow) ∈ rows := by
  induction us generalizing rows with
  | nil => cases hu
  | cons v vs ih =>
    rw [datos_en_cons] at h
    cases hv : computeDuty v with
    | none => rw [hv] at h; cases h
    | some cv =>
      rw [hv] at h
      cases hrest : datos_en vs with
      | none => rw [hrest] at h; cases h
      | some rest =>
        rw [hrest] at h
        simp only [Option.some_bind] at h
        cases h
        rcases List.mem_cons.mp hu with rfl | hu
        · rw [hv] at hc
          cases hc
          rw [if_pos hgt]
          exact .head _
        · have hmem := ih hrest hu
          by_cases hb : |cv| > 0.01
          · rw [if_pos hb]; exact .tail _ hmem
          · rw [if_neg hb]; exact hmem

/-- Soundness half of the energy-table filter: every row of the table comes
from a unit of the system whose duty clears the 0.01 kW threshold. -/
theorem datos_en_mem_inv {us : List UnitState} {rows : List EnRow}
    (h : datos_en us = some rows) {r : EnRow} (hr : r ∈ rows) :
    ∃ u ∈ us, ∃ c, computeDuty u = some c ∧ |c| > 0.01 ∧
      r = { equipo := u.ID, energia := pyround2 c } := by
  induction us generalizing rows with
  | nil =>
    cases h
    cases hr
  | cons v vs ih =>
    rw [datos_en_cons] at h
    cases hv : computeDuty v with
    | none => rw [hv] at h; cases h
    | some cv =>
      rw [hv] at h
      cases hrest : datos_en vs with
      | none => rw [hrest] at h; cases h
      | some rest =>
        rw [hrest] at h
        simp only [Option.some_bind] at h
        cases h
        by_cases hb : |cv| > 0.01
        · rw [if_pos hb] at hr
          rcases List.mem_cons.mp hr with rfl | hr
          · exact ⟨v, .head _, cv, hv, hb, rfl⟩
          · obtain ⟨u, hu, c, hc, hcgt, hrw⟩ := ih hrest hr
            exact ⟨u, .tail _ hu, c, hc, hcgt, hrw⟩
        · rw [if_neg hb] at hr
          obtain ⟨u, hu, c, hc, hcgt, hrw⟩ := ih hrest hr
          exact ⟨u, .tail _ hu, c, hc, hcgt, hrw⟩

/-- C10: a unit gets a row in the energy table exactly when the absolute
value of its computed duty exceeds 0.01 kW, and the duty is: the sum of the
`heat_utilities` duties over 3600 when that attribute is present and
non-empty; otherwise, for an `HXprocess` unit, the enthalpy difference
between first outlet and first inlet over 3600; otherwise 0. -/
theorem c10_energy_table (us : List UnitState) (rows : List EnRow)
    (h : datos_en us = some rows) :
    (∀ u ∈ us, ∀ c : ℚ, computeDuty u = some c → |c| > 0.01 →
        ({ equipo := u.ID, energia := pyround2 c } : EnRow) ∈ rows) ∧
    (∀ r ∈ rows, ∃ u ∈ us, ∃ c, computeDuty u = some c ∧ |c| > 0.01 ∧
        r = { equipo := u.ID, energia := pyround2 c }) ∧
    (∀ u : UnitState, ∀ d : ℚ, ∀ ds : List ℚ, u.heat_utilities = some (d :: ds) →
        computeDuty u = some ((d :: ds).sum / 3600)) ∧
    (∀ u : UnitState,
        (u.heat_utilities = none ∨ u.heat_utilities = some []) →
        u.isHXprocess = true →
        ∀ o : StreamState, ∀ os : List StreamState,
        ∀ i : StreamState, ∀ is' : List StreamState,
        u.outs = o :: os → u.ins = i :: is' →
        computeDuty u = some ((o.H - i.H) / 3600)) ∧
    (∀ u : UnitState,
        (u.heat_utilities = none ∨ u.heat_utilities = some []) →
        u.isHXprocess = false → computeDuty u = some 0) := by
  refine ⟨fun u hu c hc hgt => datos_en_mem_of_duty h hu hc hgt,
          fun r hr => datos_en_mem_inv h hr, ?_, ?_, ?_⟩
  · intro u d ds hhu
    simp [computeDuty, hhu]
  · intro u hhu hhx o os i is' ho hi
    rcases hhu with hhu | hhu <;> simp [computeDuty, hhu, hhx, ho, hi]
  · intro u hhu hhx
    rcases hhu with hhu | hhu <;> simp [computeDuty, hhu, hhx]

/-- C10 (witness): a two-unit system — a heater with one 3600 kJ/h utility
(duty 1 kW) and a pump with no utilities (duty 0 kW) — yields a table
containing exactly the heater's row. -/
theorem c10_witness :
    ({ equipo := "E-101", energia := pyround2 1 } : EnRow) ∈
      [({ equipo := "E-101", energia := pyround2 1 } : EnRow)] := by
  have h : datos_en [⟨"E-101", some [3600], false, [], []⟩,
                     ⟨"P-100", some [], false, [], []⟩]
      = some [{ equipo := "E-101", energia := pyround2 1 }] := by
    norm_num [datos_en, datos_en_cons, computeDuty]
  exact (c10_energy_table _ _ h).1 ⟨"E-101", some [3600], false, [], []⟩ (.head _) 1
    (by norm_num [computeDuty]) (by norm_num)

